import Mathlib

set_option autoImplicit false

namespace LeadForge

/-! # Slot supervisor model (`src/core/engine/slot_manager.py`)

The supervisor's per-slot reconciliation step (the body of the main loop,
lines 361-509) is embedded as a pure function on the slot's state document.
Timestamps are seconds since an arbitrary epoch; `ensure_state_defaults` is
assumed to have run, so every field of the document is present.  OS queries
(`os.kill(pid, 0)`) are abstracted by an aliveness oracle, and process spawns
are reported in the result instead of performed. -/

def HEARTBEAT_TIMEOUT : Nat := 30

def STARTUP_GRACE_SECONDS : Nat := 60

/-- The slot state document, restricted to the fields the supervisor and the
control plane's start endpoint read or write. -/
structure SlotState where
  slot_id : String := ""
  worker : String := ""
  status : String := "STOPPED"
  mode : String := "ACTIVE"
  pid : Option Nat := none
  command : Option String := none
  busy : Bool := false
  auto_resume : Bool := false
  last_heartbeat : Option Nat := none
  started_at : Option Nat := none
  stopped_at : Option Nat := none
  stop_reason : Option String := none
  last_command : Option String := none
  deriving Repr, DecidableEq

/-- Environment of one reconciliation tick: the wall clock, the OS process
table (`alive p` answers `os.kill(p, 0)` succeeding), and the pid the next
`start_runner` call would return. -/
structure TickEnv where
  now : Nat
  alive : Nat → Bool
  newPid : Nat

/-- Function `is_process_running(pid)`: `None` and `0` are falsy, otherwise signal 0
is sent to the pid. -/
def is_process_running (alive : Nat → Bool) : Option Nat → Bool
  | none => false
  | some p => if p = 0 then false else alive p

/-- Function `within_startup_grace(state)`: true when `started_at` is present and less
than `STARTUP_GRACE_SECONDS` ago (a missing `started_at` is falsy and yields
`False`). -/
def within_startup_grace (now : Nat) (st : SlotState) : Bool :=
  match st.started_at with
  | none => false
  | some t => now - t < STARTUP_GRACE_SECONDS

/-- Python truthiness of the `pid` field: present and non-zero. -/
def pid_truthy : Option Nat → Bool
  | none => false
  | some p => decide (p ≠ 0)

/-- Result of one reconciliation step for one slot: the saved state document
and whether a fresh worker process was spawned during the step. -/
structure TickResult where
  state : SlotState
  spawned : Bool
  deriving Repr, DecidableEq

/-- TRUTH ENFORCEMENT, first block (lines 375-391): a slot in
`STOPPED|PAUSED|DEAD` with a truthy `pid` has its stray process stopped and
its `pid`/`busy`/`last_heartbeat` cleared. -/
def sweep_stopped (st : SlotState) : SlotState :=
  if (st.status = "STOPPED" ∨ st.status = "PAUSED" ∨ st.status = "DEAD") ∧
      pid_truthy st.pid then
    { st with pid := none, busy := false, last_heartbeat := none }
  else st

/-- COMMAND HANDLING block (lines 460-509).  `st0` carries the local
variables captured at the top of the loop body (`pid`, `status`, `command`,
`mode`), `st1` the state document as mutated so far. -/
def command_handling (env : TickEnv) (st0 st1 : SlotState) : TickResult :=
  if st0.command = some "START" ∨
      (st0.status = "STARTING" ∧ is_process_running env.alive st0.pid = false) then
    if st0.mode = "OBSERVER" then
      ⟨{ st1 with command := none }, false⟩
    else if is_process_running env.alive st0.pid then
      ⟨{ st1 with
          status := "RUNNING", started_at := some env.now,
          last_heartbeat := some env.now, busy := true, command := none }, false⟩
    else
      ⟨{ st1 with
          pid := some env.newPid, status := "RUNNING",
          started_at := some env.now, last_heartbeat := some env.now,
          busy := true, command := none }, true⟩
  else if st0.command = some "PAUSE" then
    ⟨{ st1 with
        status := "PAUSED", pid := none, busy := false,
        last_heartbeat := none, command := none }, false⟩
  else if st0.command = some "STOP" then
    ⟨{ st1 with
        status := "STOPPED", pid := none, auto_resume := false,
        command := none }, false⟩
  else ⟨st1, false⟩

/-- HEARTBEAT CHECK block (lines 415-458): a `RUNNING` slot with no recorded
heartbeat dies with `no_heartbeat`; any slot whose heartbeat is older than
`HEARTBEAT_TIMEOUT` dies with `heartbeat_timeout` and its command cleared;
otherwise the step proceeds to command handling. -/
def heartbeat_check (env : TickEnv) (st0 st1 : SlotState) : TickResult :=
  match st0.last_heartbeat with
  | none =>
    if st0.status = "RUNNING" then
      ⟨{ st1 with
          status := "DEAD", busy := false, pid := none,
          stop_reason := some "no_heartbeat", stopped_at := some env.now }, false⟩
    else command_handling env st0 st1
  | some hb =>
    if HEARTBEAT_TIMEOUT < env.now - hb then
      ⟨{ st1 with
          status := "DEAD", pid := none, busy := false,
          last_heartbeat := none, stop_reason := some "heartbeat_timeout",
          stopped_at := some env.now, command := none }, false⟩
    else command_handling env st0 st1

/-- One reconciliation step of the supervisor for one slot (main loop body,
lines 361-509): truth enforcement (sweep, startup grace, PID check, heartbeat
check) runs first, command handling runs after, and several liveness branches
return early without reaching command handling. -/
def slot_tick (env : TickEnv) (st0 : SlotState) : TickResult :=
  let st1 := sweep_stopped st0
  if st0.status = "RUNNING" ∨ st0.status = "STARTING" ∨ st0.status = "STOPPING" then
    if within_startup_grace env.now st1 then ⟨st1, false⟩
    else if st0.command = some "START" ∨ st0.status = "STARTING" then
      heartbeat_check env st0 st1
    else if is_process_running env.alive st0.pid then
      heartbeat_check env st0 st1
    else
      ⟨{ st1 with
          status := "STOPPED", pid := none, busy := false,
          last_heartbeat := none, command := none }, false⟩
  else command_handling env st0 st1

/-! ## Control-plane start endpoint (`src/api/app.py`, `start_slot`) -/

def DEFAULT_SLOT_WORKER : String := "indiamart_worker"

def DEFAULT_SLOT_MODE : String := "ACTIVE"

/-- Result of `POST /slots/{id}/start`: the saved state, whether a runner
process was spawned, and the response tag. -/
structure StartResult where
  state : SlotState
  spawned : Bool
  response : String
  deriving Repr, DecidableEq

/-- Endpoint handler `start_slot` (app.py lines 1725-1763): returns `already_running` when the
document says `RUNNING`; otherwise fills missing identity defaults, spawns a
runner unconditionally, and records `RUNNING` with the new pid.  The slot's
`mode` is never consulted. -/
def start_slot (slotId : String) (st : SlotState) (newPid : Nat) : StartResult :=
  if st.status = "RUNNING" then ⟨st, false, "already_running"⟩
  else
    let st := if st.slot_id = "" then { st with slot_id := slotId } else st
    let st := if st.worker = "" then { st with worker := DEFAULT_SLOT_WORKER } else st
    let st := if st.mode = "" then { st with mode := DEFAULT_SLOT_MODE } else st
    ⟨{ st with
        status := "RUNNING", pid := some newPid,
        last_command := some "START" }, true, "started"⟩

/-! ## Claims C2, C3, C4 (supervisor side) -/

/-- Concrete tick environment for the C2 counterexample: wall clock 200, every
pid alive, next spawn would return pid 99. -/
def c2Env : TickEnv := { now := 200, alive := fun _ => true, newPid := 99 }

/-- A RUNNING slot with a pending START command and a heartbeat 190 seconds
old, well past the 60-second startup grace. -/
def c2State : SlotState :=
  { slot_id := "slot_001", worker := "indiamart_worker", status := "RUNNING",
    mode := "ACTIVE", pid := some 77, command := some "START", busy := true,
    last_heartbeat := some 10, started_at := some 0 }

/-- C2 counterexample: a slot whose state holds `command = START` together
with a stale heartbeat is NOT handled command-first: the heartbeat liveness
check runs first, marks the slot DEAD with `heartbeat_timeout`, clears the
command, and no fresh worker is spawned on that tick. -/
theorem c2_counterexample :
    (slot_tick c2Env c2State).spawned = false ∧
    (slot_tick c2Env c2State).state.status = "DEAD" ∧
    (slot_tick c2Env c2State).state.command = none ∧
    (slot_tick c2Env c2State).state.stop_reason = some "heartbeat_timeout" := by
  decide

/-- C2 (amended): the supervisor runs liveness checks before command handling.
A pending START exempts a slot only from the dead-PID check; a slot in
RUNNING/STARTING/STOPPING past its startup grace with `command = START` and a
heartbeat older than `HEARTBEAT_TIMEOUT` is marked DEAD with stop_reason
`heartbeat_timeout`, its command is cleared, and no worker is spawned on that
tick. -/
theorem c2_liveness_runs_before_commands (env : TickEnv) (st : SlotState) (hb : Nat)
    (hs : st.status = "RUNNING" ∨ st.status = "STARTING" ∨ st.status = "STOPPING")
    (hg : within_startup_grace env.now st = false)
    (hc : st.command = some "START")
    (hhb : st.last_heartbeat = some hb)
    (hstale : HEARTBEAT_TIMEOUT < env.now - hb) :
    slot_tick env st =
      ⟨{ st with
          status := "DEAD", pid := none, busy := false, last_heartbeat := none,
          stop_reason := some "heartbeat_timeout", stopped_at := some env.now,
          command := none }, false⟩ := by
  have hsweep : sweep_stopped st = st := by
    unfold sweep_stopped
    rcases hs with h | h | h <;> simp [h]
  unfold slot_tick
  rw [hsweep]
  simp only [hs, if_pos, hg, Bool.false_eq_true, if_false, hc, true_or, if_true]
  unfold heartbeat_check
  rw [hhb]
  simp [hstale]

/-- C2 amended, witnessed at the concrete counterexample input. -/
theorem c2_liveness_runs_before_commands_witness :
    slot_tick c2Env c2State =
      ⟨{ c2State with
          status := "DEAD", pid := none, busy := false, last_heartbeat := none,
          stop_reason := some "heartbeat_timeout", stopped_at := some 200,
          command := none }, false⟩ :=
  c2_liveness_runs_before_commands c2Env c2State 10 (Or.inl rfl) (by decide) rfl rfl
    (by decide)

/-- Concrete tick environment for the C3 counterexample: wall clock 100, no
pid alive. -/
def c3Env : TickEnv := { now := 100, alive := fun _ => false, newPid := 99 }

/-- A RUNNING slot past its grace window, no pending command, fresh heartbeat,
whose recorded pid 42 is not a live OS process. -/
def c3State : SlotState :=
  { slot_id := "slot_001", worker := "indiamart_worker", status := "RUNNING",
    mode := "ACTIVE", pid := some 42, command := none, busy := true,
    last_heartbeat := some 95, started_at := some 0 }

/-- C3 counterexample: a RUNNING slot past grace with a dead pid is marked
STOPPED with no stop_reason, not DEAD with stop_reason `dead_pid` as claimed. -/
theorem c3_counterexample :
    (slot_tick c3Env c3State).state.status = "STOPPED" ∧
    (slot_tick c3Env c3State).state.status ≠ "DEAD" ∧
    (slot_tick c3Env c3State).state.stop_reason = none ∧
    (slot_tick c3Env c3State).state.stop_reason ≠ some "dead_pid" := by
  decide

/-- C3 (amended): a slot in RUNNING or STOPPING, past its startup grace, with
no pending START, whose recorded pid is null or not a live OS process, is
transitioned to STOPPED with pid, heartbeat and command cleared; stop_reason
is left untouched and `dead_pid` is never written.  (A STARTING slot skips the
PID check entirely.) -/
theorem c3_dead_pid_marks_stopped (env : TickEnv) (st : SlotState)
    (hs : st.status = "RUNNING" ∨ st.status = "STOPPING")
    (hg : within_startup_grace env.now st = false)
    (hc : st.command ≠ some "START")
    (hp : is_process_running env.alive st.pid = false) :
    slot_tick env st =
      ⟨{ st with
          status := "STOPPED", pid := none, busy := false,
          last_heartbeat := none, command := none }, false⟩ := by
  have hsweep : sweep_stopped st = st := by
    unfold sweep_stopped
    rcases hs with h | h <;> simp [h]
  have hns : st.status ≠ "STARTING" := by
    rcases hs with h | h <;> simp [h]
  unfold slot_tick
  rw [hsweep]
  simp only [hs]
  rcases hs with h | h <;>
    simp [h, hg, hc, hp, hns]

/-- C3 amended, witnessed at the concrete counterexample input. -/
theorem c3_dead_pid_marks_stopped_witness :
    slot_tick c3Env c3State =
      ⟨{ c3State with
          status := "STOPPED", pid := none, busy := false,
          last_heartbeat := none, command := none }, false⟩ :=
  c3_dead_pid_marks_stopped c3Env c3State (Or.inl rfl) (by decide) (by decide)
    (by decide)

/-- An OBSERVER slot, stopped, that the control plane is asked to start. -/
def c4State : SlotState :=
  { slot_id := "slot_obs", worker := "indiamart_worker", status := "STOPPED",
    mode := "OBSERVER" }

/-- C4 counterexample: the control plane's per-slot start endpoint does not
check the OBSERVER mode: it transitions the slot to RUNNING and spawns a
runner process. -/
theorem c4_counterexample :
    (start_slot "slot_obs" c4State 55).state.status = "RUNNING" ∧
    (start_slot "slot_obs" c4State 55).spawned = true ∧
    c4State.mode = "OBSERVER" := by
  decide

/-- C4 (amended): the supervisor's command handling refuses START for an
OBSERVER slot — a tick never moves such a slot to RUNNING and never spawns a
worker for it — but the control plane's per-slot start endpoint ignores mode:
for any non-RUNNING slot it spawns a runner and records status RUNNING. -/
theorem c4_observer_start_supervisor_only (env : TickEnv) (st st2 : SlotState)
    (p : Nat)
    (hm : st.mode = "OBSERVER") (hr : st.status ≠ "RUNNING")
    (h2 : st2.status ≠ "RUNNING") :
    ((slot_tick env st).spawned = false ∧
      (slot_tick env st).state.status ≠ "RUNNING") ∧
    ((start_slot "s" st2 p).state.status = "RUNNING" ∧
      (start_slot "s" st2 p).spawned = true) := by
  constructor
  · have hcmd : ∀ st1 : SlotState, st1.mode = st.mode → st1.status = st.status →
        (command_handling env st st1).spawned = false ∧
        (command_handling env st st1).state.status ≠ "RUNNING" := by
      intro st1 hmm hss
      unfold command_handling
      by_cases h1 : st.command = some "START" ∨
          (st.status = "STARTING" ∧ is_process_running env.alive st.pid = false)
      · rw [if_pos h1, if_pos hm]
        exact ⟨rfl, by simpa [hss] using hr⟩
      · rw [if_neg h1]
        by_cases hp2 : st.command = some "PAUSE"
        · rw [if_pos hp2]
          exact ⟨rfl, by simp⟩
        · rw [if_neg hp2]
          by_cases hp3 : st.command = some "STOP"
          · rw [if_pos hp3]
            exact ⟨rfl, by simp⟩
          · rw [if_neg hp3]
            exact ⟨rfl, by simpa [hss] using hr⟩
    have hhb : (heartbeat_check env st (sweep_stopped st)).spawned = false ∧
        (heartbeat_check env st (sweep_stopped st)).state.status ≠ "RUNNING" := by
      have hsw_mode : (sweep_stopped st).mode = st.mode := by
        unfold sweep_stopped; split <;> rfl
      have hsw_status : (sweep_stopped st).status = st.status := by
        unfold sweep_stopped; split <;> rfl
      unfold heartbeat_check
      cases st.last_heartbeat with
      | none =>
        by_cases hrun : st.status = "RUNNING"
        · exact absurd hrun hr
        · simpa [hrun] using hcmd (sweep_stopped st) hsw_mode hsw_status
      | some hb =>
        by_cases hstale : HEARTBEAT_TIMEOUT < env.now - hb
        · simp [hstale]
        · simpa [hstale] using hcmd (sweep_stopped st) hsw_mode hsw_status
    have hsw_mode : (sweep_stopped st).mode = st.mode := by
      unfold sweep_stopped; split <;> rfl
    have hsw_status : (sweep_stopped st).status = st.status := by
      unfold sweep_stopped; split <;> rfl
    unfold slot_tick
    by_cases hrl : st.status = "RUNNING" ∨ st.status = "STARTING" ∨
        st.status = "STOPPING"
    · simp only [hrl, if_true]
      by_cases hgr : within_startup_grace env.now (sweep_stopped st) = true
      · simp [hgr, hsw_status, hr]
      · by_cases hpc : st.command = some "START" ∨ st.status = "STARTING"
        · simp [hgr, hpc, hhb]
        · by_cases halive : is_process_running env.alive st.pid = true
          · simp [hgr, hpc, halive, hhb]
          · simp [hgr, hpc, halive]
    · simp only [hrl, if_false]
      exact hcmd (sweep_stopped st) hsw_mode hsw_status
  · unfold start_slot
    simp [h2]

/-- C4 amended, witnessed: a DEAD observer slot with a pending START stays
un-started by the supervisor, while the endpoint starts a stopped slot. -/
theorem c4_observer_start_supervisor_only_witness :
    ((slot_tick c2Env { c4State with command := some "START" }).spawned = false ∧
      (slot_tick c2Env { c4State with command := some "START" }).state.status ≠
        "RUNNING") ∧
    ((start_slot "s" c4State 55).state.status = "RUNNING" ∧
      (start_slot "s" c4State 55).spawned = true) :=
  c4_observer_start_supervisor_only c2Env { c4State with command := some "START" }
    c4State 55 rfl (by decide) (by decide)

/-! ## Claim C1: state-document write atomicity

The supervisor's `save_json` (`slot_manager.py` lines 77-81) writes a sibling
temp file and renames it over the target; `BaseWorker.write_state`
(`base_worker.py` lines 70-71) calls `write_text` on the target directly.  A
write operation is modelled by the paths involved and the content written;
concurrent readers are modelled by the list of contents the target file can
exhibit while the operation executes. -/

/-- A write of the state document: either a direct `write_text` on the target,
or a write of a temp file followed by an atomic `replace` over the target. -/
inductive WriteOp where
  | direct (path : String) (content : String)
  | tempRename (tmpPath : String) (path : String) (content : String)
  deriving Repr, DecidableEq

/-- Model of `pathlib.Path.with_suffix`: the last dot-separated extension of
the path is replaced by `s`. -/
def with_suffix (p s : String) : String :=
  let parts := p.splitOn "."
  if parts.length ≤ 1 then p ++ s
  else String.intercalate "." parts.dropLast ++ s

/-- Supervisor-side `save_json(path, data)`: builds
`tmp = path.with_suffix(".tmp." + pid)`, writes the temp file, then
`tmp.replace(path)`. -/
def save_json (path : String) (text : String) (writerPid : Nat) : WriteOp :=
  .tempRename (with_suffix path (".tmp." ++ toString writerPid)) path text

/-- Worker-side `BaseWorker.write_state(state)`: a plain
`self.state_file.write_text(json.dumps(state, indent=2))` with no temp file
and no rename. -/
def write_state (slotDir : String) (text : String) : WriteOp :=
  .direct (slotDir ++ "/slot_state.json") text

/-- Contents of the TARGET file a concurrent reader can observe while a write
operation executes, given prior content `old`.  A direct `write_text` opens
the target for truncation and streams the new bytes, so every prefix of the
new content (including the empty truncated file) is observable; a temp-file
write leaves the target untouched until the atomic rename installs the
complete new content. -/
def target_observations (op : WriteOp) (old : String) : List String :=
  match op with
  | .direct _ c => old :: (List.range (c.length + 1)).map (fun k => c.take k)
  | .tempRename _ _ c => [old, c]

/-- Old state-document content for the C1 counterexample (`\x7b` and `\x7d`
are the JSON braces). -/
def c1Old : String := "\x7b\"status\": \"STOPPED\"\x7d"

/-- New content written by the worker in the C1 counterexample. -/
def c1New : String := "\x7b\"status\": \"RUNNING\"\x7d"

/-- C1 counterexample: during the worker's `write_state` a reader of the state
document can observe a four-byte fragment of the new JSON — a
partially-written, non-parseable value that is neither the old nor the new
document — and the worker's write is not a temp-plus-rename write. -/
theorem c1_counterexample :
    "\x7b\"st" ∈ target_observations (write_state "slots/slot_001" c1New) c1Old ∧
    "\x7b\"st" ≠ c1Old ∧ "\x7b\"st" ≠ c1New ∧
    (∀ t p c, write_state "slots/slot_001" c1New ≠ WriteOp.tempRename t p c) := by
  refine ⟨?_, by decide, by decide, fun t p c => by simp [write_state]⟩
  have h4 : ("\x7b\"st" : String) = c1New.take 4 := by decide
  rw [h4]
  unfold target_observations write_state
  refine List.mem_cons_of_mem _ (List.mem_map.mpr ⟨4, List.mem_range.mpr ?_, rfl⟩)
  decide

/-- C1 (amended): the supervisor's `save_json` is atomic — a concurrent reader
only ever observes the old or the complete new content — while the worker's
`write_state` writes the target directly, so every prefix of the new content
is observable mid-write. -/
theorem c1_save_json_atomic_write_state_not (path text old : String)
    (writerPid : Nat) (slotDir st : String) (k : Nat) (hk : k ≤ st.length) :
    (∀ obs ∈ target_observations (save_json path text writerPid) old,
      obs = old ∨ obs = text) ∧
    st.take k ∈ target_observations (write_state slotDir st) old := by
  constructor
  · intro obs h
    simpa [target_observations, save_json] using h
  · unfold target_observations write_state
    exact List.mem_cons_of_mem _
      (List.mem_map.mpr ⟨k, List.mem_range.mpr (by omega), rfl⟩)

/-- C1 amended, witnessed at the concrete counterexample contents. -/
theorem c1_save_json_atomic_write_state_not_witness :
    (∀ obs ∈ target_observations
        (save_json "slots/slot_001/slot_state.json" c1New 7) c1Old,
      obs = c1Old ∨ obs = c1New) ∧
    c1New.take 5 ∈ target_observations (write_state "slots/slot_001" c1New) c1Old :=
  c1_save_json_atomic_write_state_not "slots/slot_001/slot_state.json" c1New c1Old 7
    "slots/slot_001" c1New 5 (by decide)

/-! ## Claim C8: cooldown phase (`src/core/workers/indiamart_worker.py`)

`_enter_cooldown` (lines 1932-1937) records `cooldown_until = now + cooldown`
where `cooldown` is `cooldown_seconds` when that option is a non-negative
number, else `compute_cooldown()`; `compute_cooldown` (lines 1939-1949) is a
piecewise function of the metrics `error_rate`; `_cooldown_phase`
(lines 2381-2384) performs no sleep at all and transitions straight back to
FETCH_RECENT. -/

/-- Worker pipeline state fields touched by the cooldown machinery
(`self.state` of `IndiaMartWorker`). -/
structure WorkerPhase where
  phase : String := "INIT"
  cooldown_until : ℚ := 0
  last_action : Option String := none
  deriving Repr, DecidableEq

/-- Method `compute_cooldown` of `IndiaMartWorker`: piecewise in `error_rate`. -/
def compute_cooldown (errorRate : ℚ) : ℚ :=
  if errorRate < 5/100 then 2
  else if errorRate < 15/100 then 5
  else if errorRate < 30/100 then 10
  else 20

/-- Method `_enter_cooldown(reason)`: `cooldown_seconds` from the config is
used when it is a number `≥ 0` (`none` models a missing or non-numeric
option), else `compute_cooldown()`; it records `cooldown_until = now +
cooldown` and sets the phase to COOLDOWN.  The second component is the
selected cooldown value. -/
def enter_cooldown (cooldownSecondsCfg : Option ℚ) (errorRate : ℚ) (now : ℚ)
    (reason : String) (st : WorkerPhase) : WorkerPhase × ℚ :=
  let cooldown :=
    match cooldownSecondsCfg with
    | some c => if 0 ≤ c then c else compute_cooldown errorRate
    | none => compute_cooldown errorRate
  ({ st with
      cooldown_until := now + cooldown, phase := "COOLDOWN",
      last_action := some reason }, cooldown)

/-- Method `_cooldown_phase`: "SKIP COOLDOWN - Go straight back to fetching" —
no sleep is performed (the second component is the seconds slept during the
phase) and the phase is set straight back to FETCH_RECENT. -/
def cooldown_phase (st : WorkerPhase) : WorkerPhase × ℚ :=
  ({ st with phase := "FETCH_RECENT", last_action := some "skip_cooldown" }, 0)

/-- C8 counterexample: with `cooldown_seconds = 7` configured, entering
cooldown records a 7-second cooldown, but the COOLDOWN phase handler sleeps 0
seconds — not the configured 7 — before transitioning back to FETCH_RECENT. -/
theorem c8_counterexample :
    (enter_cooldown (some 7) 0 100 "write_done" { phase := "WRITE_LEADS" }).2 = 7 ∧
    (cooldown_phase
      (enter_cooldown (some 7) 0 100 "write_done" { phase := "WRITE_LEADS" }).1).2 = 0 ∧
    (cooldown_phase
      (enter_cooldown (some 7) 0 100 "write_done" { phase := "WRITE_LEADS" }).1).1.phase
      = "FETCH_RECENT" ∧
    (0 : ℚ) ≠ 7 := by
  refine ⟨?_, rfl, rfl, by norm_num⟩
  norm_num [enter_cooldown]

/-- C8 (amended): entering cooldown selects `cooldown_seconds` when that
option is configured as a non-negative number and otherwise the adaptive
piecewise cooldown of `error_rate` (<5% → 2s, <15% → 5s, <30% → 10s, else
20s), recording `cooldown_until = now + cooldown` with phase COOLDOWN; the
COOLDOWN phase handler itself, however, transitions straight back to
FETCH_RECENT without sleeping at all. -/
theorem c8_cooldown_selected_but_never_slept (cfg : Option ℚ) (er c now : ℚ)
    (reason : String) (st st2 : WorkerPhase) :
    ((enter_cooldown (some c) er now reason st).2
        = if 0 ≤ c then c else compute_cooldown er) ∧
    (enter_cooldown none er now reason st).2 = compute_cooldown er ∧
    (enter_cooldown cfg er now reason st).1.phase = "COOLDOWN" ∧
    (enter_cooldown cfg er now reason st).1.cooldown_until
        = now + (enter_cooldown cfg er now reason st).2 ∧
    (compute_cooldown er = 2 ↔ er < 5/100) ∧
    (compute_cooldown er = 5 ↔ (5/100 ≤ er ∧ er < 15/100)) ∧
    (compute_cooldown er = 10 ↔ (15/100 ≤ er ∧ er < 30/100)) ∧
    (compute_cooldown er = 20 ↔ 30/100 ≤ er) ∧
    cooldown_phase st2
      = ({ st2 with
            phase := "FETCH_RECENT", last_action := some "skip_cooldown" }, 0) := by
  refine ⟨rfl, rfl, ?_, ?_, ?_, ?_, ?_, ?_, rfl⟩
  · cases cfg <;> rfl
  · cases cfg <;> rfl
  all_goals
    unfold compute_cooldown
  all_goals
    split_ifs <;> constructor <;> intro h <;>
      first
        | linarith
        | linarith [h.1]
        | linarith [h.2]
        | (constructor <;> linarith)

/-! ## Claim C9: federation router (`src/api/app.py`, lines 435-479)

`node_auth_headers` picks the node's configured token, falling back to a
locally issued admin token; `node_request_json` builds the upstream request
with a 12-second timeout, surfaces upstream HTTP errors with the upstream
status code and body, and maps transport failures to status 502.  The HTTP
transport and the JSON parser are abstracted as functions. -/

/-- A node record from the node registry (empty `base_url` means local). -/
structure Node where
  node_id : String
  node_name : String
  base_url : String
  token : String
  deriving Repr, DecidableEq

/-- The upstream HTTP request `node_request_json` constructs. -/
structure HttpRequest where
  method : String
  url : String
  headers : List (String × String)
  timeout : Nat
  deriving Repr, DecidableEq

/-- Outcome of the upstream call: a transport failure
(`requests.RequestException`) or a response with status code and body text. -/
inductive TransportResult where
  | fail (msg : String)
  | resp (status : Nat) (body : String)
  deriving Repr, DecidableEq

/-- An `HTTPException(status_code, detail)` raised by the router. -/
structure HttpError where
  status : Nat
  detail : String
  deriving Repr, DecidableEq

/-- Function `node_auth_headers(node, db)`: the node's token, or a locally
issued admin token when the node has none (empty string models a missing
token). -/
def node_auth_headers (node : Node) (adminToken : String) : List (String × String) :=
  let token := if node.token = "" then adminToken else node.token
  [("Authorization", "Bearer " ++ token)]

/-- The request `node_request_json` sends: `<base_url><path>`, JSON
content type plus the bearer header, and a 12-second timeout. -/
def built_node_request (node : Node) (adminToken method path : String) :
    HttpRequest :=
  { method := method, url := node.base_url ++ path,
    headers := ("Content-Type", "application/json") :: node_auth_headers node adminToken,
    timeout := 12 }

/-- Function `node_request_json` over an abstract transport and JSON parser
(`α`/`parse`/`emptyVal` model `res.json()` with its `return {}` fallbacks):
requires a non-empty `base_url`; a transport exception becomes a 502 with the
transport error message; a response with `not res.ok` (status ≥ 400) becomes
an error carrying the upstream status and body (`res.text or "Node error
<status>"`); otherwise the parsed body (or the empty value) is returned. -/
def node_request_json (α : Type) (emptyVal : α) (parse : String → Option α)
    (node : Node) (adminToken method path : String)
    (transport : HttpRequest → TransportResult) : Except HttpError α :=
  if node.base_url = "" then .error ⟨502, "Node missing base_url"⟩
  else
    match transport (built_node_request node adminToken method path) with
    | .fail msg => .error ⟨502, "Node request failed: " ++ msg⟩
    | .resp status body =>
      if 400 ≤ status then
        .error ⟨status, if body = "" then "Node error " ++ toString status else body⟩
      else if body = "" then .ok emptyVal
      else .ok ((parse body).getD emptyVal)

/-- C9: every forwarded cluster operation on a node with a non-empty base_url
carries `Authorization: Bearer` with the node's token (admin fallback when
empty) and a 12-second timeout; an upstream HTTP error surfaces with the
upstream status code and body; a transport failure surfaces as 502 with the
transport error message. -/
theorem c9_forwarding_auth_timeout_and_errors (α : Type) (emptyVal : α)
    (parse : String → Option α) (node : Node) (adminToken method path msg : String)
    (status : Nat) (body : String)
    (hbase : node.base_url ≠ "") (hstatus : 400 ≤ status) (hbody : body ≠ "") :
    (built_node_request node adminToken method path).timeout = 12 ∧
    ("Authorization",
        "Bearer " ++ (if node.token = "" then adminToken else node.token)) ∈
      (built_node_request node adminToken method path).headers ∧
    node_request_json α emptyVal parse node adminToken method path
        (fun _ => .fail msg) = .error ⟨502, "Node request failed: " ++ msg⟩ ∧
    node_request_json α emptyVal parse node adminToken method path
        (fun _ => .resp status body) = .error ⟨status, body⟩ := by
  refine ⟨rfl, ?_, ?_, ?_⟩
  · simp [built_node_request, node_auth_headers]
  · simp [node_request_json, hbase]
  · simp [node_request_json, hbase, hstatus, hbody]

/-- C9 witnessed at a concrete node, transport failure and upstream 503. -/
theorem c9_forwarding_auth_timeout_and_errors_witness :
    (built_node_request ⟨"n2", "Node 2", "http://n2:8000", ""⟩ "admintok" "GET"
        "/slots/s1/status").timeout = 12 ∧
    ("Authorization", "Bearer " ++ (if ("" : String) = "" then "admintok" else "")) ∈
      (built_node_request ⟨"n2", "Node 2", "http://n2:8000", ""⟩ "admintok" "GET"
        "/slots/s1/status").headers ∧
    node_request_json String "" (fun s => some s)
        ⟨"n2", "Node 2", "http://n2:8000", ""⟩ "admintok" "GET" "/slots/s1/status"
        (fun _ => .fail "connection refused")
      = .error ⟨502, "Node request failed: " ++ "connection refused"⟩ ∧
    node_request_json String "" (fun s => some s)
        ⟨"n2", "Node 2", "http://n2:8000", ""⟩ "admintok" "GET" "/slots/s1/status"
        (fun _ => .resp 503 "upstream overloaded")
      = .error ⟨503, "upstream overloaded"⟩ :=
  c9_forwarding_auth_timeout_and_errors String "" (fun s => some s)
    ⟨"n2", "Node 2", "http://n2:8000", ""⟩ "admintok" "GET" "/slots/s1/status"
    "connection refused" 503 "upstream overloaded" (by decide) (by decide) (by decide)

/-! ## Python string primitives

Kernel-reducible models of the Python string operations the worker uses
(`str.strip`, `str.split`, `str.lower`, `int(...)`, the `in` operator),
defined by structural recursion on the character list. -/

/-- Python `str.strip()`: drop leading and trailing whitespace. -/
def py_strip (cs : List Char) : List Char :=
  ((cs.dropWhile Char.isWhitespace).reverse.dropWhile Char.isWhitespace).reverse

/-- Python `str.split(sep)` for a one-character separator. -/
def py_split (sep : Char) : List Char → List (List Char)
  | [] => [[]]
  | c :: cs =>
    if c = sep then [] :: py_split sep cs
    else
      match py_split sep cs with
      | [] => [[c]]
      | p :: ps => (c :: p) :: ps

/-- Digit-sequence accumulator for `py_int?`. -/
def py_digits_aux : List Char → Nat → Option Nat
  | [], acc => some acc
  | c :: cs, acc =>
    if c.isDigit then py_digits_aux cs (acc * 10 + (c.toNat - 48)) else none

/-- Python `int(str)`: surrounding whitespace is tolerated, an optional sign
is followed by a non-empty digit sequence. -/
def py_int? (cs : List Char) : Option Int :=
  match py_strip cs with
  | '-' :: ds =>
    if ds = [] then none else (py_digits_aux ds 0).map (fun n => -(n : Int))
  | '+' :: ds =>
    if ds = [] then none else (py_digits_aux ds 0).map (fun n => (n : Int))
  | ds =>
    if ds = [] then none else (py_digits_aux ds 0).map (fun n => (n : Int))

/-- Python `str.strip()` on `String`. -/
def py_trim (s : String) : String := String.mk (py_strip s.data)

/-- Python `str.lower()` on `String` (ASCII, which is all the code compares). -/
def py_lower (s : String) : String := String.mk (s.data.map Char.toLower)

/-- Whether `hay` starts with `needle`. -/
def starts_with : List Char → List Char → Bool
  | _, [] => true
  | [], _ :: _ => false
  | c :: cs, d :: ds => c = d && starts_with cs ds

/-- Whether `needle` occurs inside `hay` as a contiguous run. -/
def contains_sub (hay needle : List Char) : Bool :=
  match hay with
  | [] => starts_with [] needle
  | c :: cs => starts_with (c :: cs) needle || contains_sub cs needle

/-- Python `needle in hay` on strings. -/
def py_in (needle hay : String) : Bool := contains_sub hay.data needle.data

/-! ## Claim C10: schedule-window semantics (`src/core/workers/base_worker.py`)

`BaseWorker._parse_minutes` (lines 180-193) and
`BaseWorker._schedule_allows_run` (lines 195-220).  The current wall-clock in
the schedule's effective timezone is supplied as a weekday number (Monday = 0)
plus minutes-of-day. -/

/-- The `client_schedule` mapping from the slot config. -/
structure ClientSchedule where
  enabled : Option Bool := none
  timezone : Option String := none
  days : Option (List String) := none
  window_start : Option String := none
  window_end : Option String := none
  deriving Repr, DecidableEq

/-- The `DAY_ALIASES` table of `BaseWorker`. -/
def DAY_ALIASES : List (String × Nat) :=
  [("mon", 0), ("monday", 0), ("tue", 1), ("tues", 1), ("tuesday", 1),
   ("wed", 2), ("weds", 2), ("wednesday", 2), ("thu", 3), ("thur", 3),
   ("thurs", 3), ("thursday", 3), ("fri", 4), ("friday", 4), ("sat", 5),
   ("saturday", 5), ("sun", 6), ("sunday", 6)]

/-- Method `_normalize_days(value)`: lower-cases and strips every token, maps
it through `DAY_ALIASES`, drops unknown tokens, and returns `None` when the
input is falsy or no token mapped. -/
def normalize_days (value : Option (List String)) : Option (List Nat) :=
  match value with
  | none => none
  | some tokens =>
    if tokens = [] then none
    else
      let days := tokens.filterMap (fun tk =>
        let key := py_lower (py_trim tk)
        if key = "" then none
        else (DAY_ALIASES.find? (fun p => p.1 = key)).map (fun p => p.2))
      if days = [] then none else some days

/-- Method `_parse_minutes(value)`: a falsy value fails; the string is
stripped and split on ":"; fewer than two parts fail; both parts must parse
as Python integers with `0 ≤ hour ≤ 23` and `0 ≤ minute ≤ 59`; the result is
`hour*60 + minute`. -/
def parse_minutes (value : Option String) : Option Nat :=
  match value with
  | none => none
  | some v =>
    if v = "" then none
    else
      match py_split ':' (py_strip v.data) with
      | p0 :: p1 :: _ =>
        match py_int? p0, py_int? p1 with
        | some hour, some minute =>
          if hour < 0 ∨ 23 < hour ∨ minute < 0 ∨ 59 < minute then none
          else some (hour.toNat * 60 + minute.toNat)
        | _, _ => none
      | _ => none

/-- The day-list test inside `_schedule_allows_run`: `allowed_days` truthy and
the current weekday outside it refuses the run. -/
def day_allows (s : ClientSchedule) (weekday : Nat) : Bool :=
  match normalize_days s.days with
  | some ds => ds.contains weekday
  | none => true

/-- The time-of-day window test inside `_schedule_allows_run`: an unparseable
endpoint or equal endpoints impose no restriction; a forward window means
`start ≤ current < end`; an inverted window wraps past midnight and means
`current ≥ start or current < end`. -/
def window_allows (s : ClientSchedule) (current : Nat) : Bool :=
  match parse_minutes s.window_start, parse_minutes s.window_end with
  | some a, some b =>
    if a = b then true
    else if a < b then decide (a ≤ current ∧ current < b)
    else decide (current ≥ a ∨ current < b)
  | _, _ => true

/-- Method `_schedule_allows_run(schedule)`: a missing schedule or
`enabled is False` always allows; otherwise the day list is checked first and
then the time window. -/
def schedule_allows_run (schedule : Option ClientSchedule) (weekday current : Nat) :
    Bool :=
  match schedule with
  | none => true
  | some s =>
    if s.enabled = some false then true
    else if day_allows s weekday = false then false
    else window_allows s current

/-- C10: for an enabled schedule, (i) when `window_start` equals `window_end`
(as parsed) or either endpoint fails to parse as a valid HH:MM time, the
time-of-day window imposes no restriction and only the day list decides; and
(ii) when `window_start` is later than `window_end`, the window wraps past
midnight: the run is allowed iff the day list allows it and the current time
is at or after `window_start` or strictly before `window_end`. -/
theorem c10_degenerate_and_wrapping_windows (s1 s2 : ClientSchedule)
    (weekday current a b : Nat)
    (he1 : s1.enabled ≠ some false) (he2 : s2.enabled ≠ some false)
    (hdeg : parse_minutes s1.window_start = none ∨
      parse_minutes s1.window_end = none ∨
      parse_minutes s1.window_start = parse_minutes s1.window_end)
    (ha : parse_minutes s2.window_start = some a)
    (hb : parse_minutes s2.window_end = some b) (hwrap : b < a) :
    schedule_allows_run (some s1) weekday current = day_allows s1 weekday ∧
    schedule_allows_run (some s2) weekday current
      = (day_allows s2 weekday && decide (current ≥ a ∨ current < b)) := by
  constructor
  · have hwin : window_allows s1 current = true := by
      unfold window_allows
      rcases hdeg with h | h | h
      · rw [h]
      · rw [h]
        cases parse_minutes s1.window_start <;> rfl
      · cases hse : parse_minutes s1.window_start with
        | none => rfl
        | some x =>
          rw [hse] at h
          rw [← h]
          simp
    simp only [schedule_allows_run]
    rw [if_neg he1]
    by_cases hd : day_allows s1 weekday = false
    · simp [hd]
    · simp only [Bool.not_eq_false] at hd
      simp [hd, hwin]
  · have hwin : window_allows s2 current = decide (current ≥ a ∨ current < b) := by
      unfold window_allows
      rw [ha, hb]
      have hne : ¬ a = b := by omega
      have hnlt : ¬ a < b := by omega
      simp [hne, hnlt]
    simp only [schedule_allows_run]
    rw [if_neg he2]
    by_cases hd : day_allows s2 weekday = false
    · simp [hd]
    · simp only [Bool.not_eq_false] at hd
      simp [hd, hwin]

/-- C10 witnessed: an enabled Monday/Wednesday schedule with a degenerate
10:00-10:00 window is decided by its day list alone, and an enabled 22:00-06:00
schedule wraps past midnight. -/
theorem c10_degenerate_and_wrapping_windows_witness :
    schedule_allows_run
        (some { enabled := some true, days := some ["mon", "wed"],
                window_start := some "10:00", window_end := some "10:00" }) 2 1380
      = day_allows
          { enabled := some true, days := some ["mon", "wed"],
            window_start := some "10:00", window_end := some "10:00" } 2 ∧
    schedule_allows_run
        (some { enabled := some true, window_start := some "22:00",
                window_end := some "06:00" }) 2 1380
      = (day_allows
            { enabled := some true, window_start := some "22:00",
              window_end := some "06:00" } 2 && decide (1380 ≥ 1320 ∨ 1380 < 360)) :=
  c10_degenerate_and_wrapping_windows
    { enabled := some true, days := some ["mon", "wed"],
      window_start := some "10:00", window_end := some "10:00" }
    { enabled := some true, window_start := some "22:00",
      window_end := some "06:00" }
    2 1380 1320 360 (by decide) (by decide) (by decide) (by decide) (by decide)
    (by decide)

/-! ## Lead model (`src/core/db/database.py`, `src/core/workers/indiamart_worker.py`)

The lead dict flowing through the pipeline, the SQLite-backed lead ledger
(`leads` table keyed by the `lead_id` PRIMARY KEY), and the operations the
claims C5-C7 are about.  The ledger is held most-recent-first (the order
`get_slot_lead_ids` reads back with `ORDER BY fetched_at DESC`; the pipeline
stamps `fetched_at = now` on insert, so a fresh insert is prepended).  The
sha1 content hash used for synthesized keys is an opaque parameter `h`. -/

/-- Python truthiness for an optional string: `None` and `""` are falsy. -/
def truthy_str : Option String → Option String
  | none => none
  | some s => if s = "" then none else some s

/-- Python `a or b` on optional strings. -/
def py_or (a b : Option String) : Option String :=
  match truthy_str a with
  | some s => some s
  | none => b

/-- A lead dict as produced by the parse phase (missing keys are `none`,
missing flags are falsy). -/
structure LeadDict where
  lead_id : Option String := none
  id : Option String := none
  title : Option String := none
  company : Option String := none
  url : Option String := none
  detail_url : Option String := none
  buy_url : Option String := none
  country : Option String := none
  country_code : Option String := none
  member_since : Option String := none
  status : Option String := none
  rejected_reason : Option String := none
  fetched_at : Option String := none
  clicked_at : Option String := none
  verified_at : Option String := none
  age_seconds : Option Int := none
  mobile_available : Bool := false
  mobile_verified : Bool := false
  email_available : Bool := false
  email_verified : Bool := false
  whatsapp_available : Bool := false
  lead_key : Option String := none
  slot_id : Option String := none
  lead_id_synthetic : Bool := false
  deriving Repr, DecidableEq, Inhabited

/-- Method `IndiaMartWorker._lead_key` (lines 332-343): portal id, else url
before the query string, else lower-cased title/company, else `hash:` plus the
sha1 digest of the sorted-key JSON dump (the opaque `h`). -/
def lead_key (h : LeadDict → String) (l : LeadDict) : String :=
  let lid := py_trim ((truthy_str l.lead_id).getD "")
  if lid ≠ "" then "id:" ++ lid
  else
    let url := py_trim ((truthy_str (py_or l.url l.detail_url)).getD "")
    if url ≠ "" then
      "url:" ++ (match py_split '?' url.data with
        | p :: _ => String.mk p
        | [] => url)
    else
      let title := py_lower (py_trim ((truthy_str (py_or l.title l.company)).getD ""))
      if title ≠ "" then "title:" ++ title
      else "hash:" ++ h l

/-- The id `save_lead_to_db` keys on:
`lead_data.get("lead_id") or lead_data.get("id")`. -/
def effective_id (l : LeadDict) : Option String :=
  match truthy_str l.lead_id with
  | some s => some s
  | none => truthy_str l.id

/-- The status column value: `lead_data.get("status", "captured")`. -/
def status_of (l : LeadDict) : String := l.status.getD "captured"

/-- The url column value:
`lead_data.get("url") or lead_data.get("detail_url")`. -/
def url_col (l : LeadDict) : Option String := py_or l.url l.detail_url

/-- A row of the `leads` table (SQLite schema in `database.py` init_db). -/
structure LeadRow where
  lead_id : String
  slot_id : String
  title : Option String := none
  url : Option String := none
  country : Option String := none
  status : String := "captured"
  fetched_at : Option String := none
  clicked_at : Option String := none
  verified_at : Option String := none
  raw : LeadDict := {}
  deriving Repr, DecidableEq

/-- Function `save_lead_to_db(lead_data, slot_id)` (database.py lines
182-218): no-op without an id; `INSERT ... ON CONFLICT(lead_id) DO UPDATE SET
status=excluded.status, clicked_at=excluded.clicked_at,
raw_data=excluded.raw_data`.  `verified_at` is not in the insert column list,
so it starts NULL and only `mark_leads_as_verified` ever sets it. -/
def save_lead_to_db (l : LeadDict) (slotId : String) (t : List LeadRow) :
    List LeadRow :=
  match effective_id l with
  | none => t
  | some lid =>
    if t.any (fun r => r.lead_id == lid) then
      t.map (fun r =>
        if r.lead_id == lid then
          { r with status := status_of l, clicked_at := l.clicked_at, raw := l }
        else r)
    else
      { lead_id := lid, slot_id := slotId, title := l.title, url := url_col l,
        country := l.country, status := status_of l, fetched_at := l.fetched_at,
        clicked_at := l.clicked_at, verified_at := none, raw := l } :: t

/-- Function `mark_leads_as_verified(slot_id, verified_ids, verified_at)`
(database.py lines 235-257): `UPDATE leads SET status='verified',
verified_at=? WHERE slot_id=? AND lead_id IN (...)`; an empty id set is a
no-op. -/
def mark_leads_as_verified (slotId : String) (ids : List String) (vAt : String)
    (t : List LeadRow) : List LeadRow :=
  if ids = [] then t
  else
    t.map (fun r =>
      if r.slot_id == slotId && ids.contains r.lead_id then
        { r with status := "verified", verified_at := some vAt }
      else r)

/-- Function `get_slot_lead_ids(slot_id, limit)` (database.py lines 220-233):
the most recent `limit` ids of the slot, by `fetched_at` descending. -/
def get_slot_lead_ids (slotId : String) (limit : Nat) (t : List LeadRow) :
    List String :=
  ((t.filter (fun r => r.slot_id == slotId)).take limit).map (fun r => r.lead_id)

/-- Method `IndiaMartWorker._load_existing_keys` (lines 345-355): the recent
ids prefixed with `id:`, falsy ids dropped. -/
def load_existing_keys (slotId : String) (t : List LeadRow) : List String :=
  (get_slot_lead_ids slotId 5000 t).filterMap
    (fun lid => if lid = "" then none else some ("id:" ++ lid))

/-- The dedup loop of `_parse_recent_phase` (lines 2283-2296): keep a lead
only when its key is not in `existing`, record the key on the lead, and add
the key to `existing` so later duplicates in the same batch are dropped. -/
def dedup_fresh (h : LeadDict → String) (existing : List String) :
    List LeadDict → List LeadDict
  | [] => []
  | l :: ls =>
    let key := lead_key h l
    if existing.contains key then dedup_fresh h existing ls
    else { l with lead_key := some key } :: dedup_fresh h (key :: existing) ls

/-- The payload `_persist_leads` hands to `save_lead_to_db`:
`{**lead, "lead_key": ..., "slot_id": ..., "fetched_at": lead.get("fetched_at") or now}`. -/
def persist_payload (h : LeadDict → String) (slotId nowTs : String)
    (l : LeadDict) : LeadDict :=
  { l with
      lead_key := some (lead_key h l), slot_id := some slotId,
      fetched_at := some ((truthy_str l.fetched_at).getD nowTs) }

/-- Method `IndiaMartWorker._persist_leads` (lines 1890-1924): leads without a
truthy `lead_id` are skipped, the rest are upserted. -/
def persist_leads (h : LeadDict → String) (slotId nowTs : String)
    (leads : List LeadDict) (t : List LeadRow) : List LeadRow :=
  leads.foldl (fun acc l =>
    if truthy_str l.lead_id = none then acc
    else save_lead_to_db (persist_payload h slotId nowTs l) slotId acc) t

/-- The dedup-then-persist path of the pipeline for one batch of parsed
qualifying leads (PARSE_RECENT dedup followed by WRITE_LEADS persistence; the
CLICK phase in between may update `status`/`clicked_at` of buffered leads but
never their identity). -/
def parse_and_persist (h : LeadDict → String) (slotId nowTs : String)
    (t : List LeadRow) (leads : List LeadDict) : List LeadRow :=
  persist_leads h slotId nowTs (dedup_fresh h (load_existing_keys slotId t) leads) t

/-- The ordered first-occurrence projection of a batch keyed by the lead key,
relative to an already-seen key set. -/
def first_occur (h : LeadDict → String) (seen : List String) :
    List LeadDict → List LeadDict
  | [] => []
  | l :: ls =>
    if seen.contains (lead_key h l) then first_occur h seen ls
    else l :: first_occur h (lead_key h l :: seen) ls

/-- The row that persisting a fresh lead inserts into an empty slot ledger. -/
def fresh_row (h : LeadDict → String) (slotId nowTs : String) (l : LeadDict) :
    LeadRow :=
  let p := persist_payload h slotId nowTs l
  { lead_id := (effective_id p).getD "", slot_id := slotId, title := p.title,
    url := url_col p, country := p.country, status := status_of p,
    fetched_at := p.fetched_at, clicked_at := p.clicked_at, verified_at := none,
    raw := p }

/-- A well-formed portal or synthesized id: present, non-empty, and free of
surrounding whitespace (every id the parse phase produces — portal numerals or
`hash:<16-hex>` — has this shape). -/
def good_id (l : LeadDict) : Bool :=
  match l.lead_id with
  | some s => !(s == "") && (py_trim s == s)
  | none => false

/-! ## Claim C5: verified-status monotonicity -/

/-- The status the ledger holds for a primary key (`SELECT status FROM leads
WHERE lead_id = ?`). -/
def lead_status (k : String) (t : List LeadRow) : Option String :=
  (t.find? (fun r => r.lead_id == k)).map (fun r => r.status)

/-- A lead-store operation: an `append_leads`-style upsert or a bulk
verification. -/
inductive StoreOp where
  | save (l : LeadDict)
  | markVerified (ids : List String) (verifiedAt : String)
  deriving Repr, DecidableEq

/-- Apply one store operation to the ledger. -/
def apply_store_op (slotId : String) (t : List LeadRow) : StoreOp → List LeadRow
  | .save l => save_lead_to_db l slotId t
  | .markVerified ids vAt => mark_leads_as_verified slotId ids vAt t

/-- An operation that cannot demote key `k`: any upsert addressing `k` must
itself carry status `verified` (bulk verification never demotes). -/
def preserves_verified (k : String) : StoreOp → Bool
  | .save l => decide (effective_id l = some k → status_of l = "verified")
  | .markVerified _ _ => true

/-- Primary-key lookup commutes with row updates that keep `lead_id`. -/
theorem find?_map_id_preserving (g : LeadRow → LeadRow)
    (hg : ∀ r, (g r).lead_id = r.lead_id) (k : String) :
    ∀ t : List LeadRow, (t.map g).find? (fun r => r.lead_id == k)
      = (t.find? (fun r => r.lead_id == k)).map g
  | [] => rfl
  | r :: t => by
    by_cases hr : (r.lead_id == k) = true
    · simp [List.find?, hg r, hr]
    · simp [List.find?, hg r, hr, find?_map_id_preserving g hg k t]

/-- A row update that keeps ids and sends the found row to a verified row
keeps the looked-up status verified. -/
theorem lead_status_map_verified (k : String) (t : List LeadRow) (r0 : LeadRow)
    (g : LeadRow → LeadRow) (hg : ∀ r, (g r).lead_id = r.lead_id)
    (hfind : t.find? (fun r => r.lead_id == k) = some r0)
    (hgs : (g r0).status = "verified") :
    lead_status k (t.map g) = some "verified" := by
  unfold lead_status
  rw [find?_map_id_preserving g hg k t, hfind]
  simpa using hgs

/-- One verified-preserving store operation keeps key `k` verified. -/
theorem step_preserves_verified (slotId k : String) (t : List LeadRow)
    (op : StoreOp) (h0 : lead_status k t = some "verified")
    (hop : preserves_verified k op = true) :
    lead_status k (apply_store_op slotId t op) = some "verified" := by
  obtain ⟨r0, hr0, hs0⟩ := by
    simpa [lead_status, Option.map_eq_some'] using h0
  have hr0k : r0.lead_id = k := by
    have := List.find?_some hr0
    simpa using this
  cases op with
  | save l =>
    have hop2 : effective_id l = some k → status_of l = "verified" :=
      of_decide_eq_true (by simpa [preserves_verified] using hop)
    cases he : effective_id l with
    | none => simpa [apply_store_op, save_lead_to_db, he] using h0
    | some lid =>
      simp only [apply_store_op, save_lead_to_db, he]
      by_cases hany : (t.any fun r => r.lead_id == lid) = true
      · rw [if_pos hany]
        refine lead_status_map_verified k t r0 _ ?_ hr0 ?_
        · intro r
          dsimp only
          split <;> rfl
        · dsimp only
          by_cases hlk : (r0.lead_id == lid) = true
          · have hkl : lid = k := by
              have h1 := eq_of_beq hlk
              rw [hr0k] at h1
              exact h1.symm
            have hsv : status_of l = "verified" := hop2 (by rw [he, hkl])
            simp [hlk, hsv]
          · simp [hlk, hs0]
      · rw [if_neg hany]
        have hlidk : (lid == k) = false := by
          by_contra hcon
          simp only [Bool.not_eq_false] at hcon
          have hkl : lid = k := eq_of_beq hcon
          apply hany
          exact List.any_eq_true.mpr
            ⟨r0, List.mem_of_find?_eq_some hr0, by simp [hr0k, hkl]⟩
        simp [lead_status, List.find?, hlidk, hr0, hs0]
  | markVerified ids vAt =>
    by_cases hids : ids = []
    · simpa [apply_store_op, mark_leads_as_verified, hids] using h0
    · simp only [apply_store_op, mark_leads_as_verified, if_neg hids]
      refine lead_status_map_verified k t r0 _ ?_ hr0 ?_
      · intro r
        dsimp only
        split <;> rfl
      · dsimp only
        split
        · rfl
        · exact hs0

/-- C5 (amended): the SQLite upsert overwrites `status` unconditionally with
the incoming value, so `verified` is monotonic only under the hypothesis that
no later upsert of the same key carries a non-verified status: under that
hypothesis, any sequence of upserts and bulk verifications keeps the key
verified. -/
theorem c5_verified_monotonic (slotId k : String) (t : List LeadRow)
    (ops : List StoreOp) (h0 : lead_status k t = some "verified")
    (hops : ∀ op ∈ ops, preserves_verified k op = true) :
    lead_status k (ops.foldl (apply_store_op slotId) t) = some "verified" := by
  induction ops generalizing t with
  | nil => exact h0
  | cons op ops ih =>
    rw [List.foldl_cons]
    exact ih (apply_store_op slotId t op)
      (step_preserves_verified slotId k t op h0 (hops op (by simp)))
      (fun o ho => hops o (by simp [ho]))

/-- A lead persisted as verified for the C5 counterexample. -/
def c5LeadVerified : LeadDict := { lead_id := some "77", status := some "verified" }

/-- A later upsert of the same key carrying status captured. -/
def c5LeadCaptured : LeadDict := { lead_id := some "77", status := some "captured" }

/-- C5 counterexample: key 77 reaches `verified`; a later upsert of the same
key with status `captured` reverts the persisted record to `captured`. -/
theorem c5_counterexample :
    lead_status "77" (save_lead_to_db c5LeadVerified "slot_001" []) = some "verified" ∧
    lead_status "77" (save_lead_to_db c5LeadCaptured "slot_001"
      (save_lead_to_db c5LeadVerified "slot_001" [])) = some "captured" ∧
    ("captured" : String) ≠ "verified" := by
  decide

/-- C5 amended, witnessed: verified key 77 survives a bulk verification, an
upsert of an unrelated key, and a verified re-upsert of key 77. -/
theorem c5_verified_monotonic_witness :
    lead_status "77"
      ([StoreOp.markVerified ["77"] "T1",
        StoreOp.save { lead_id := some "88", status := some "captured" },
        StoreOp.save { lead_id := some "77", status := some "verified" }].foldl
        (apply_store_op "slot_001") (save_lead_to_db c5LeadVerified "slot_001" []))
      = some "verified" :=
  c5_verified_monotonic "slot_001" "77" (save_lead_to_db c5LeadVerified "slot_001" [])
    [StoreOp.markVerified ["77"] "T1",
     StoreOp.save { lead_id := some "88", status := some "captured" },
     StoreOp.save { lead_id := some "77", status := some "verified" }]
    (by decide) (by decide)

/-! ## Claim C6: dedup by lead key and idempotent persistence -/

/-- The mutation the dedup loop applies to a kept lead:
`lead["lead_key"] = key`. -/
def with_key (h : LeadDict → String) (l : LeadDict) : LeadDict :=
  { l with lead_key := some (lead_key h l) }

/-- Unpacking a well-formed id: the stored id is non-empty and
whitespace-free, and it determines truthiness, the upsert key and the lead
key. -/
theorem good_id_parts (l : LeadDict) (hg : good_id l = true) :
    ∃ s, l.lead_id = some s ∧ s ≠ "" ∧ py_trim s = s ∧
      truthy_str l.lead_id = some s ∧ effective_id l = some s ∧
      (∀ h, lead_key h l = "id:" ++ s) := by
  unfold good_id at hg
  cases hl : l.lead_id with
  | none =>
    rw [hl] at hg
    exact absurd hg (by simp)
  | some s =>
    rw [hl] at hg
    simp only [Bool.and_eq_true, Bool.not_eq_true', beq_eq_false_iff_ne,
      beq_iff_eq] at hg
    obtain ⟨hs1, hs2⟩ := hg
    refine ⟨s, rfl, hs1, hs2, ?_, ?_, ?_⟩
    · simp [truthy_str, hl, hs1]
    · simp [effective_id, truthy_str, hl, hs1]
    · intro h
      simp [lead_key, truthy_str, hl, hs1, hs2]

/-- Recording the lead key does not change the lead's identity fields. -/
theorem good_id_with_key (h : LeadDict → String) (l : LeadDict) :
    good_id (with_key h l) = good_id l := rfl

/-- Recording the lead key does not change the upsert key. -/
theorem effective_id_with_key (h : LeadDict → String) (l : LeadDict) :
    effective_id (with_key h l) = effective_id l := rfl

/-- For a well-formed id the lead key ignores the recorded `lead_key` field. -/
theorem lead_key_with_key (h : LeadDict → String) (l : LeadDict)
    (hg : good_id l = true) :
    lead_key h (with_key h l) = lead_key h l := by
  obtain ⟨s, hl, hs1, hs2, _, _, hk⟩ := good_id_parts l hg
  obtain ⟨s2, hl2, _, _, _, _, hk2⟩ :=
    good_id_parts (with_key h l) (by rw [good_id_with_key]; exact hg)
  rw [hk2, hk]
  have : s2 = s := by
    have h3 : (with_key h l).lead_id = l.lead_id := rfl
    rw [hl, hl2] at h3
    exact Option.some_injective _ h3
  rw [this]

/-- The dedup loop equals the first-occurrence projection with the key
recorded on every kept lead. -/
theorem dedup_eq_first_occur (h : LeadDict → String) (E : List String)
    (ls : List LeadDict) :
    dedup_fresh h E ls = (first_occur h E ls).map (with_key h) := by
  induction ls generalizing E with
  | nil => rfl
  | cons l ls ih =>
    by_cases hk : lead_key h l ∈ E
    · simp [dedup_fresh, first_occur, hk, ih E]
    · simp [dedup_fresh, first_occur, hk, ih (lead_key h l :: E), with_key]

/-- Every kept lead comes from the input batch. -/
theorem first_occur_mem (h : LeadDict → String) :
    ∀ (E : List String) (ls : List LeadDict) (l : LeadDict),
      l ∈ first_occur h E ls → l ∈ ls := by
  intro E ls
  induction ls generalizing E with
  | nil => intro l hl; simp [first_occur] at hl
  | cons l0 ls ih =>
    intro l hl
    simp only [first_occur] at hl
    by_cases hk : E.contains (lead_key h l0) = true
    · rw [if_pos hk] at hl
      exact List.mem_cons_of_mem _ (ih E l hl)
    · rw [if_neg hk] at hl
      rcases List.mem_cons.mp hl with h1 | h1
      · exact h1 ▸ List.mem_cons_self l0 ls
      · exact List.mem_cons_of_mem _ (ih (lead_key h l0 :: E) l h1)

/-- The key of every kept lead is new relative to the already-seen set. -/
theorem first_occur_key_notin (h : LeadDict → String) :
    ∀ (E : List String) (ls : List LeadDict) (l : LeadDict),
      l ∈ first_occur h E ls → E.contains (lead_key h l) = false := by
  intro E ls
  induction ls generalizing E with
  | nil => intro l hl; simp [first_occur] at hl
  | cons l0 ls ih =>
    intro l hl
    simp only [first_occur] at hl
    by_cases hk : E.contains (lead_key h l0) = true
    · rw [if_pos hk] at hl
      exact ih E l hl
    · rw [if_neg hk] at hl
      rcases List.mem_cons.mp hl with h1 | h1
      · rw [h1]
        simpa using hk
      · have := ih (lead_key h l0 :: E) l h1
        simp only [List.contains_cons, Bool.or_eq_false_iff] at this
        exact this.2

/-- Kept leads have pairwise distinct keys. -/
theorem first_occur_keys_pairwise (h : LeadDict → String) :
    ∀ (E : List String) (ls : List LeadDict),
      (first_occur h E ls).Pairwise
        (fun a b => lead_key h a ≠ lead_key h b) := by
  intro E ls
  induction ls generalizing E with
  | nil => exact List.Pairwise.nil
  | cons l0 ls ih =>
    simp only [first_occur]
    by_cases hk : E.contains (lead_key h l0) = true
    · rw [if_pos hk]
      exact ih E
    · rw [if_neg hk]
      refine List.Pairwise.cons ?_ (ih (lead_key h l0 :: E))
      intro b hb hkey
      have := first_occur_key_notin h (lead_key h l0 :: E) ls b hb
      simp only [List.contains_cons, Bool.or_eq_false_iff] at this
      have h1 := this.1
      rw [← hkey] at h1
      simp at h1

/-- Every lead of the batch has its key either already seen or represented
among the kept leads. -/
theorem first_occur_covers (h : LeadDict → String) :
    ∀ (E : List String) (ls : List LeadDict) (l : LeadDict), l ∈ ls →
      lead_key h l ∈ E ∨
        ∃ l2 ∈ first_occur h E ls, lead_key h l2 = lead_key h l := by
  intro E ls
  induction ls generalizing E with
  | nil => intro l hl; simp at hl
  | cons l0 ls ih =>
    intro l hl
    simp only [first_occur]
    by_cases hk : E.contains (lead_key h l0) = true
    · rw [if_pos hk]
      rcases List.mem_cons.mp hl with h1 | h1
      · left
        rw [h1]
        simpa using hk
      · exact ih E l h1
    · rw [if_neg hk]
      rcases List.mem_cons.mp hl with h1 | h1
      · right
        exact ⟨l0, List.mem_cons_self _ _, by rw [h1]⟩
      · rcases ih (lead_key h l0 :: E) l h1 with h2 | ⟨l2, hl2, hkey⟩
        · rcases List.mem_cons.mp h2 with h3 | h3
          · right
            exact ⟨l0, List.mem_cons_self _ _, h3.symm⟩
          · left
            exact h3
        · right
          exact ⟨l2, List.mem_cons_of_mem _ hl2, hkey⟩

/-- The payload keeps the upsert key of the lead. -/
theorem effective_id_payload (h : LeadDict → String) (slotId nowTs : String)
    (l : LeadDict) :
    effective_id (persist_payload h slotId nowTs l) = effective_id l := rfl

/-- Persisting a batch of well-formed, pairwise-distinct, not-yet-present
leads prepends exactly one fresh row per lead (in reverse batch order). -/
theorem persist_fresh_inserts (h : LeadDict → String) (slotId nowTs : String) :
    ∀ (fresh : List LeadDict) (t : List LeadRow),
      (∀ l ∈ fresh, good_id l = true) →
      (∀ l ∈ fresh, ∀ r ∈ t, some r.lead_id ≠ effective_id l) →
      fresh.Pairwise (fun a b => effective_id a ≠ effective_id b) →
      persist_leads h slotId nowTs fresh t
        = (fresh.map (fresh_row h slotId nowTs)).reverse ++ t := by
  intro fresh
  induction fresh with
  | nil => intro t _ _ _; simp [persist_leads]
  | cons l ls ih =>
    intro t hgood hnot hpair
    obtain ⟨s, hl, hs1, _, htr, heff, _⟩ :=
      good_id_parts l (hgood l (List.mem_cons_self _ _))
    have hstep : persist_leads h slotId nowTs (l :: ls) t
        = persist_leads h slotId nowTs ls
            (save_lead_to_db (persist_payload h slotId nowTs l) slotId t) := by
      simp only [persist_leads, List.foldl_cons]
      rw [if_neg (by rw [htr]; simp)]
    have hanyf : (t.any fun r => r.lead_id == s) = false := by
      rw [Bool.eq_false_iff]
      intro hcon
      obtain ⟨r, hrmem, hrs⟩ := List.any_eq_true.mp hcon
      exact hnot l (List.mem_cons_self _ _) r hrmem
        (by rw [heff, eq_of_beq hrs])
    have hsave : save_lead_to_db (persist_payload h slotId nowTs l) slotId t
        = fresh_row h slotId nowTs l :: t := by
      simp only [save_lead_to_db, effective_id_payload, heff]
      rw [if_neg (by rw [hanyf]; simp)]
      simp [fresh_row, effective_id_payload, heff]
    rw [hstep, hsave,
      ih (fresh_row h slotId nowTs l :: t)
        (fun l2 hl2 => hgood l2 (List.mem_cons_of_mem _ hl2))
        ?_ (List.pairwise_cons.mp hpair).2]
    · simp
    · intro l2 hl2 r hr
      rcases List.mem_cons.mp hr with h1 | h1
      · have hrow : (fresh_row h slotId nowTs l).lead_id = s := by
          simp [fresh_row, effective_id_payload, heff]
        rw [h1, hrow, ← heff]
        exact (List.pairwise_cons.mp hpair).1 l2 hl2
      · exact hnot l2 (List.mem_cons_of_mem _ hl2) r h1

/-- For well-formed ids the fresh row ignores a previously recorded lead
key. -/
theorem fresh_row_with_key (h : LeadDict → String) (slotId nowTs : String)
    (l : LeadDict) (hg : good_id l = true) :
    fresh_row h slotId nowTs (with_key h l) = fresh_row h slotId nowTs l := by
  unfold fresh_row persist_payload
  rw [lead_key_with_key h l hg]
  simp [with_key]

/-- An all-nonempty id list maps straight through the `id:` prefixing. -/
theorem filterMap_ids (ids : List String) (hne : ∀ i ∈ ids, i ≠ "") :
    ids.filterMap (fun lid => if lid = "" then none else some ("id:" ++ lid))
      = ids.map (fun lid => "id:" ++ lid) := by
  induction ids with
  | nil => rfl
  | cons i ids ih =>
    simp only [List.filterMap_cons, List.map_cons,
      if_neg (hne i (List.mem_cons_self _ _))]
    rw [ih (fun j hj => hne j (List.mem_cons_of_mem _ hj))]

/-- A batch whose keys are all already known contributes nothing. -/
theorem dedup_all_seen (h : LeadDict → String) (E : List String)
    (ls : List LeadDict) (hall : ∀ l ∈ ls, lead_key h l ∈ E) :
    dedup_fresh h E ls = [] := by
  induction ls with
  | nil => rfl
  | cons l ls ih =>
    simp [dedup_fresh, hall l (List.mem_cons_self _ _),
      ih (fun l2 hl2 => hall l2 (List.mem_cons_of_mem _ hl2))]

/-- The primary key a fresh row carries is the lead's well-formed id. -/
theorem fresh_row_lead_id (h : LeadDict → String) (slotId nowTs : String)
    (l : LeadDict) (s : String) (heff : effective_id l = some s) :
    (fresh_row h slotId nowTs l).lead_id = s := by
  simp [fresh_row, effective_id_payload, heff]

/-- C6: running the dedup-then-persist pipeline over an empty slot ledger
persists exactly the ordered first-occurrence projection of the parsed batch
keyed by the lead key (one row per first occurrence, most recent first), and
re-running the pipeline on the same batch changes nothing: no new rows are
inserted. -/
theorem c6_first_occurrence_and_idempotence (h : LeadDict → String)
    (slotId nowTs : String) (leads : List LeadDict)
    (hgood : ∀ l ∈ leads, good_id l = true)
    (hbound : (first_occur h [] leads).length ≤ 5000) :
    parse_and_persist h slotId nowTs [] leads
      = ((first_occur h [] leads).map (fresh_row h slotId nowTs)).reverse ∧
    parse_and_persist h slotId nowTs
        (parse_and_persist h slotId nowTs [] leads) leads
      = parse_and_persist h slotId nowTs [] leads := by
  have hfo_good : ∀ l ∈ first_occur h [] leads, good_id l = true :=
    fun l hl => hgood l (first_occur_mem h [] leads l hl)
  have hpart1 : parse_and_persist h slotId nowTs [] leads
      = ((first_occur h [] leads).map (fresh_row h slotId nowTs)).reverse := by
    unfold parse_and_persist
    have hload0 : load_existing_keys slotId ([] : List LeadRow) = [] := rfl
    rw [hload0, dedup_eq_first_occur]
    rw [persist_fresh_inserts h slotId nowTs _ _ ?_ ?_ ?_]
    · rw [List.append_nil, List.map_map]
      congr 1
      apply List.map_congr_left
      intro l2 hl2
      exact fresh_row_with_key h slotId nowTs l2 (hfo_good l2 hl2)
    · intro l2 hl2
      obtain ⟨l3, hl3, rfl⟩ := List.mem_map.mp hl2
      rw [good_id_with_key]
      exact hfo_good l3 hl3
    · intro l2 _ r hr
      simp at hr
    · rw [List.pairwise_map]
      refine (first_occur_keys_pairwise h [] leads).imp_of_mem ?_
      intro a b ha hb hkey
      rw [effective_id_with_key, effective_id_with_key]
      intro heq
      obtain ⟨sa, _, _, _, _, heffa, hka⟩ := good_id_parts a (hfo_good a ha)
      obtain ⟨sb, _, _, _, _, heffb, hkb⟩ := good_id_parts b (hfo_good b hb)
      rw [heffa, heffb] at heq
      apply hkey
      rw [hka h, hkb h, Option.some_injective _ heq]
  refine ⟨hpart1, ?_⟩
  rw [hpart1]
  have hrow_char : ∀ r ∈ ((first_occur h [] leads).map
      (fresh_row h slotId nowTs)).reverse,
      ∃ l2 ∈ first_occur h [] leads, r = fresh_row h slotId nowTs l2 := by
    intro r hr
    obtain ⟨l2, hl2, rfl⟩ := List.mem_map.mp (List.mem_reverse.mp hr)
    exact ⟨l2, hl2, rfl⟩
  have hkeys : load_existing_keys slotId
      (((first_occur h [] leads).map (fresh_row h slotId nowTs)).reverse)
      = ((((first_occur h [] leads).map (fresh_row h slotId nowTs)).reverse).map
          (fun r => r.lead_id)).map (fun lid => "id:" ++ lid) := by
    unfold load_existing_keys get_slot_lead_ids
    rw [List.filter_eq_self.mpr ?_]
    · rw [List.take_of_length_le ?_]
      · apply filterMap_ids
        intro i hi
        obtain ⟨r, hr, rfl⟩ := List.mem_map.mp hi
        obtain ⟨l2, hl2, rfl⟩ := hrow_char r hr
        obtain ⟨s2, _, hs2, _, _, heff2, _⟩ := good_id_parts l2 (hfo_good l2 hl2)
        rw [fresh_row_lead_id h slotId nowTs l2 s2 heff2]
        exact hs2
      · rw [List.length_reverse, List.length_map]
        exact hbound
    · intro r hr
      obtain ⟨l2, hl2, rfl⟩ := hrow_char r hr
      simp [fresh_row]
  have hcov : ∀ l ∈ leads, lead_key h l ∈ load_existing_keys slotId
      (((first_occur h [] leads).map (fresh_row h slotId nowTs)).reverse) := by
    intro l hl
    rcases first_occur_covers h [] leads l hl with h1 | ⟨l2, hl2, hkey⟩
    · simp at h1
    · obtain ⟨s2, _, _, _, _, heff2, hk2⟩ := good_id_parts l2 (hfo_good l2 hl2)
      have hrmem : fresh_row h slotId nowTs l2
          ∈ ((first_occur h [] leads).map (fresh_row h slotId nowTs)).reverse :=
        List.mem_reverse.mpr (List.mem_map_of_mem _ hl2)
      rw [hkeys, ← hkey, hk2 h]
      have hrowid := fresh_row_lead_id h slotId nowTs l2 s2 heff2
      have hmem1 : s2 ∈ (((first_occur h [] leads).map
          (fresh_row h slotId nowTs)).reverse).map (fun r => r.lead_id) := by
        rw [← hrowid]
        exact List.mem_map_of_mem _ hrmem
      exact List.mem_map_of_mem _ hmem1
  unfold parse_and_persist
  rw [dedup_all_seen h _ leads hcov]
  rfl

/-- Concrete content hash for the C6 witness. -/
def c6hash : LeadDict → String := fun _ => "d41d8cd9"

/-- A parsed lead with portal id 111. -/
def c6LeadA : LeadDict :=
  { lead_id := some "111", title := some "Copper wire", status := some "captured" }

/-- A parsed lead with portal id 222. -/
def c6LeadB : LeadDict :=
  { lead_id := some "222", title := some "PVC pipes", status := some "captured" }

/-- A re-scrape of lead 111 seen later in the same batch. -/
def c6LeadA2 : LeadDict :=
  { lead_id := some "111", title := some "Copper wire repeat",
    status := some "captured" }

/-- C6 witnessed on a batch with an in-batch duplicate key. -/
theorem c6_first_occurrence_and_idempotence_witness :
    parse_and_persist c6hash "slot_001" "T0" [] [c6LeadA, c6LeadB, c6LeadA2]
      = ((first_occur c6hash [] [c6LeadA, c6LeadB, c6LeadA2]).map
          (fresh_row c6hash "slot_001" "T0")).reverse ∧
    parse_and_persist c6hash "slot_001" "T0"
        (parse_and_persist c6hash "slot_001" "T0" [] [c6LeadA, c6LeadB, c6LeadA2])
        [c6LeadA, c6LeadB, c6LeadA2]
      = parse_and_persist c6hash "slot_001" "T0" [] [c6LeadA, c6LeadB, c6LeadA2] :=
  c6_first_occurrence_and_idempotence c6hash "slot_001" "T0"
    [c6LeadA, c6LeadB, c6LeadA2] (by decide) (by decide)

/-! ## Claim C7: exclude-term filtering
(`IndiaMartWorker._parse_recent_phase`, lines 2120-2260)

The keyword/country/capability filter loop.  `_parse_member_months` (a
regex/date parser) is the opaque parameter `pm`; the rejected side buffer
starts from the state's `rejected_buffer`, modelled empty. -/

/-- The filter options `_parse_recent_phase` reads from `self.config`. -/
structure FilterConfig where
  search_terms : List String := []
  exclude_terms : List String := []
  country : List String := []
  require_mobile_available : Bool := false
  require_mobile_verified : Bool := false
  require_email_available : Bool := false
  require_email_verified : Bool := false
  require_whatsapp_available : Bool := false
  zero_second_only : Bool := false
  max_lead_age_seconds : Option Int := none
  allow_unknown_age : Bool := false
  min_member_months : Int := 0
  max_age_hours : Int := 0
  deriving Repr, DecidableEq

/-- Term normalization `[t.lower().strip() for t in xs if t.strip()]`. -/
def norm_terms (ts : List String) : List String :=
  (ts.filter (fun t => !(py_trim t == ""))).map (fun t => py_trim (py_lower t))

/-- `max_age = int(v) if v else 86400`: a missing or zero
`max_lead_age_seconds` means a 24-hour cap. -/
def effective_max_age (o : Option Int) : Int :=
  match o with
  | some v => if v = 0 then 86400 else v
  | none => 86400

/-- A regex word character (`\w`). -/
def is_word_char (c : Char) : Bool := c.isAlphanum || c = '_'

/-- Splitting on non-word characters (the `re.split` on `\W` used for
short-token country matching; splitting per character instead of per run only
adds empty tokens, which the nonempty-membership test ignores). -/
def split_non_word : List Char → List (List Char)
  | [] => [[]]
  | c :: cs =>
    if is_word_char c then
      match split_non_word cs with
      | [] => [[c]]
      | p :: ps => (c :: p) :: ps
    else [] :: split_non_word cs

/-- The word tokens of a country string. -/
def word_tokens (cs : List Char) : List String :=
  (split_non_word cs).map (fun p => String.mk p)

/-- The country test: exact country-code match; whole-token match for short
allowed tokens (≤ 3 chars); substring match for longer tokens. -/
def country_matches (countries : List String) (l : LeadDict) : Bool :=
  let c_lower := py_trim (py_lower ((truthy_str l.country).getD ""))
  let c_tokens := if c_lower = "" then [] else word_tokens c_lower.data
  let c_code := py_trim (py_lower ((truthy_str l.country_code).getD ""))
  countries.any (fun a0 =>
    let a := py_trim (py_lower a0)
    if a = "" then false
    else if !(c_code == "") && a == c_code then true
    else if a.length ≤ 3 then c_tokens.contains a
    else !(c_lower == "") && py_in a c_lower)

/-- A lead marked rejected with a reason. -/
def rejected_with (l : LeadDict) (reason : String) : LeadDict :=
  { l with status := some "rejected", rejected_reason := some reason }

/-- The ordered rejection rules that run after the first exclude-term check:
age gate (zero-second mode, unknown age, max age), capability requirements,
country, member tenure, quality age cap, the (unreachable) second
exclude-term check, and the search-term check.  Returns the rejected lead of
the first matching rule. -/
def first_rejection (cfg : FilterConfig) (pm : String → Option Int)
    (l : LeadDict) : Option LeadDict :=
  let search_terms := norm_terms cfg.search_terms
  let exclude_terms := norm_terms cfg.exclude_terms
  let countries := norm_terms cfg.country
  let max_age := effective_max_age cfg.max_lead_age_seconds
  let title := py_lower (l.title.getD "")
  let ageReject : Option LeadDict :=
    if cfg.zero_second_only then
      if l.age_seconds ≠ some 0 then some (rejected_with l "age_not_zero")
      else none
    else if l.age_seconds = none ∧ cfg.allow_unknown_age = false then
      some (rejected_with l "age_unknown")
    else
      match l.age_seconds with
      | some a => if a > max_age then some (rejected_with l "age_too_old") else none
      | none => none
  let capReject : Option LeadDict :=
    if cfg.require_mobile_available && !(l.mobile_available || l.mobile_verified) then
      some (rejected_with l "mobile_missing")
    else if cfg.require_mobile_verified && !l.mobile_verified then
      some (rejected_with l "mobile_unverified")
    else if cfg.require_email_available && !(l.email_available || l.email_verified) then
      some (rejected_with l "email_missing")
    else if cfg.require_email_verified && !l.email_verified then
      some (rejected_with l "email_unverified")
    else if cfg.require_whatsapp_available && !l.whatsapp_available then
      some (rejected_with l "whatsapp_missing")
    else none
  let countryReject : Option LeadDict :=
    if !countries.isEmpty && !(country_matches countries l) then
      some (rejected_with l "country_not_allowed")
    else none
  let memberReject : Option LeadDict :=
    if cfg.min_member_months ≠ 0 then
      match pm ((truthy_str l.member_since).getD "") with
      | none => some (rejected_with l "member_unknown")
      | some m =>
        if m < cfg.min_member_months then some (rejected_with l "member_too_new")
        else none
    else none
  let ageHoursReject : Option LeadDict :=
    if cfg.max_age_hours ≠ 0 then
      match l.age_seconds with
      | some a =>
        if a > cfg.max_age_hours * 3600 then some (rejected_with l "age_too_old")
        else none
      | none => none
    else none
  let excludeReject : Option LeadDict :=
    if !exclude_terms.isEmpty && exclude_terms.any (fun ex => py_in ex title) then
      some { l with
              status := some "rejected",
              rejected_reason := py_or l.rejected_reason (some "keyword_excluded") }
    else none
  let searchReject : Option LeadDict :=
    if !search_terms.isEmpty && !(search_terms.any (fun term => py_in term title)) then
      some { l with
              status := some "rejected",
              rejected_reason := py_or l.rejected_reason (some "keyword_miss") }
    else none
  ageReject <|> capReject <|> countryReject <|> memberReject <|> ageHoursReject
    <|> excludeReject <|> searchReject

/-- Where one lead goes: into `filtered_leads` (the survivors list handed to
dedup and the click phase) or into the `rejected_leads` side buffer. -/
inductive FilterStep where
  | toFiltered (l : LeadDict)
  | toRejected (l : LeadDict)
  deriving Repr, DecidableEq

/-- One iteration of the filter loop.  The FIRST check is the exclude-term
check (comment: "1. Exclude Terms (Strict Drop -> Mark Rejected)"): on a hit
the lead gets `status = rejected`, is appended to `filtered_leads` — the
survivors — with no `rejected_reason`, and the iteration continues with the
next lead, so none of the later rules (including the one that would set
`keyword_excluded` and append to the rejected buffer) can run. -/
def filter_one (cfg : FilterConfig) (pm : String → Option Int)
    (l : LeadDict) : FilterStep :=
  let exclude_terms := norm_terms cfg.exclude_terms
  let title := py_lower (l.title.getD "")
  if exclude_terms.any (fun ex => py_in ex title) then
    .toFiltered { l with status := some "rejected" }
  else
    match first_rejection cfg pm l with
    | some r => .toRejected r
    | none => .toFiltered l

/-- The full filter loop: returns `(filtered_leads, rejected_leads)` in input
order. -/
def filter_leads (cfg : FilterConfig) (pm : String → Option Int) :
    List LeadDict → List LeadDict × List LeadDict
  | [] => ([], [])
  | l :: ls =>
    let rest := filter_leads cfg pm ls
    match filter_one cfg pm l with
    | .toFiltered l2 => (l2 :: rest.1, rest.2)
    | .toRejected l2 => (rest.1, l2 :: rest.2)

/-- A config excluding steel leads and searching for pipes. -/
def c7cfg : FilterConfig :=
  { exclude_terms := ["Steel "], search_terms := ["pipe"] }

/-- A parsed lead whose title contains the exclude term. -/
def c7lead : LeadDict :=
  { lead_id := some "12345", title := some "Steel pipes required",
    age_seconds := some 0, status := some "captured" }

/-- C7: at the failing input — a lead whose title contains the configured
exclude term — the filter marks the lead `status = rejected` WITHOUT a
`rejected_reason` and appends it to `filtered_leads` (the survivors passed on
toward dedup and the click phase); the rejected side buffer stays empty, so
the lead is neither recorded as `keyword_excluded` nor kept out of the click
phase. -/
theorem c7_exclude_hit_enters_survivors :
    filter_leads c7cfg (fun _ => none) [c7lead]
      = ([{ c7lead with status := some "rejected" }], []) ∧
    ({ c7lead with status := some "rejected" } : LeadDict).rejected_reason
      = none := by
  decide

end LeadForge
